import Mathlib

/-!
Shallow embedding of the plugin-manager subsystem
(`pkg/plugins/manager`, file `models.go`): registry lookups, request
dispatch, the resource-stream relay, the crash-watch loop and the
install/uninstall orchestrator, together with theorems settling the
specification claims about them.

Go errors are modelled as an inductive `GoError` whose `wrap`
constructor mirrors `fmt.Errorf("...: %w", err)` / `errutil.Wrap`;
`errorsIs` mirrors `errors.Is` (value comparison through the unwrap
chain).  Go maps guarded by the registry lock are modelled as
association lists; filesystem paths are lists of path segments.
-/

/-- Errors of the Go code, as values.  Named constructors stand for the
sentinel error values (`backendplugin.ErrPluginNotRegistered`,
`backendplugin.ErrMethodNotImplemented`, `backendplugin.ErrPluginUnavailable`,
`backendplugin.ErrHealthCheckFailed`, the `plugins.Err...` values,
`io.EOF`, `context.Canceled`); `mk` is `errors.New`, `wrap` is
`errutil.Wrap` / `fmt.Errorf` with `%w`. -/
inductive GoError where
  | pluginNotRegistered
  | methodNotImplemented
  | pluginUnavailable
  | healthCheckFailed
  | installCorePlugin
  | uninstallCorePlugin
  | uninstallOutsideOfPluginDir
  | pluginNotInstalled
  | eof
  | contextCanceled
  | mk (msg : String)
  | wrap (msg : String) (cause : GoError)
  deriving DecidableEq, Repr

/-- Mirrors Go `errors.Is(e, target)`: `e` equals `target` by value, or some
error in `e`'s unwrap chain does. -/
def errorsIs : GoError → GoError → Bool
  | e@(.wrap _ cause), target => e = target || errorsIs cause target
  | e, target => e = target

/-- Plugin types.  Modelled from the spec: `type` is an enum
datasource/panel/app/renderer (`plugins.PluginType`, not under src). -/
inductive PluginType where
  | dataSource
  | panel
  | app
  | renderer
  deriving DecidableEq, Repr

/-- Modelled from the spec: `plugins.PluginTypes`, the list of all plugin
types, used by `Plugins` when no type filter is passed. -/
def PluginTypes : List PluginType := [.dataSource, .panel, .app, .renderer]

/-- A plugin handle.  Modelled from the spec (the `plugins.PluginV2`
type is not under src; only its callers are): identity, type, the
core/external classification, install directory (as path segments) and
the monotonic `decommissioned` flag read by `IsDecommissioned`. -/
structure PluginV2 where
  ID : String
  pluginType : PluginType
  external : Bool
  pluginDir : List String
  decommissioned : Bool
  deriving DecidableEq, Repr

/-- Mirrors `p.IsDecommissioned()`.  Modelled from the spec: reads the
handle's monotonic decommission flag. -/
def PluginV2.IsDecommissioned (p : PluginV2) : Bool :=
  p.decommissioned

/-- Mirrors `p.IsExternalPlugin()`.  Modelled from the spec: the
core/external classification of the handle. -/
def PluginV2.IsExternalPlugin (p : PluginV2) : Bool :=
  p.external

/-- The registry map `m.plugins : map[string]*plugins.PluginV2`, as an
association list with unique keys. -/
abbrev Registry : Type := List (String × PluginV2)

/-- Go map indexing `p, ok := m.plugins[pluginID]`. -/
def mapLookup : Registry → String → Option PluginV2
  | [], _ => none
  | (k, v) :: rest, pluginID => if k = pluginID then some v else mapLookup rest pluginID

/-- Go map deletion `delete(m.plugins, id)`. -/
def mapDelete : Registry → String → Registry
  | [], _ => []
  | (k, v) :: rest, pluginID =>
    if k = pluginID then mapDelete rest pluginID else (k, v) :: mapDelete rest pluginID

/-- Updates the handle stored under a key in place (pointer mutation of the
shared handle seen through the map). -/
def mapUpdate (reg : Registry) (pluginID : String) (f : PluginV2 → PluginV2) : Registry :=
  reg.map fun kv => if kv.1 = pluginID then (kv.1, f kv.2) else kv

/-- `PluginManager.Plugin`: map lookup; a present but decommissioned handle
yields nil. -/
def Plugin (reg : Registry) (pluginID : String) : Option PluginV2 :=
  match mapLookup reg pluginID with
  | none => none
  | some p => if p.IsDecommissioned then none else some p

/-- `PluginManager.PluginByType`: map lookup; a present handle that is
decommissioned or of the wrong type yields nil. -/
def PluginByType (reg : Registry) (pluginID : String) (pluginType : PluginType) :
    Option PluginV2 :=
  match mapLookup reg pluginID with
  | none => none
  | some p =>
    if p.IsDecommissioned || !(p.pluginType = pluginType : Bool) then none else some p

/-- The set of requested types in `PluginManager.Plugins`: an empty argument
list means all types. -/
def requestedTypes (pluginTypes : List PluginType) : List PluginType :=
  if pluginTypes.isEmpty then PluginTypes else pluginTypes

/-- `PluginManager.Plugins`: every handle in the map whose type is in the
requested set (no decommission filter in the source). -/
def Plugins (reg : Registry) (pluginTypes : List PluginType) : List PluginV2 :=
  (reg.map Prod.snd).filter fun p => (requestedTypes pluginTypes).contains p.pluginType

/-- `PluginManager.isRegistered`: the `Plugin` lookup followed by a (redundant)
decommission check. -/
def isRegistered (reg : Registry) (pluginID : String) : Bool :=
  match Plugin reg pluginID with
  | none => false
  | some p => !p.IsDecommissioned

/-! ## Request dispatcher: QueryData, CollectMetrics, CheckHealth -/

/-- `backend.QueryDataResponse`; `{}` is the zero value returned for an absent
plugin. -/
structure QueryDataResponse where
  Responses : List (String × String) := []
  deriving DecidableEq, Repr

/-- `backend.CollectMetricsResult`. -/
structure CollectMetricsResult where
  PrometheusMetrics : List String := []
  deriving DecidableEq, Repr

/-- `backend.CheckHealthResult`. -/
structure CheckHealthResult where
  Status : Nat := 0
  Message : String := ""
  deriving DecidableEq, Repr

/-- `PluginManager.QueryData`: lookup via `Plugin`; absent handle yields an
empty successful response; a sentinel error (by `errors.Is`) from the plugin
call is returned verbatim, every other error is wrapped with
"failed to query data".  The underlying `plugin.QueryData` call's outcome is
the `callResult` argument (the wire transport is an external collaborator). -/
def QueryData (reg : Registry) (pluginID : String)
    (callResult : Except GoError QueryDataResponse) : Except GoError QueryDataResponse :=
  match Plugin reg pluginID with
  | none => .ok {}
  | some _ =>
    match callResult with
    | .ok resp => .ok resp
    | .error err =>
      if errorsIs err .methodNotImplemented then .error err
      else if errorsIs err .pluginUnavailable then .error err
      else .error (.wrap "failed to query data" err)

/-- `PluginManager.CollectMetrics`: lookup via `Plugin`; absent handle yields
`ErrPluginNotRegistered`; the plugin call's error is returned as is. -/
def CollectMetrics (reg : Registry) (pluginID : String)
    (callResult : Except GoError CollectMetricsResult) :
    Except GoError CollectMetricsResult :=
  match Plugin reg pluginID with
  | none => .error .pluginNotRegistered
  | some _ =>
    match callResult with
    | .ok resp => .ok resp
    | .error err => .error err

/-- `PluginManager.CheckHealth`: validate first (a validation error yields a
403 result value, not an error); then lookup via `Plugin` (absent yields
`ErrPluginNotRegistered`); a sentinel error from the plugin call is returned
verbatim, every other error is replaced by "failed to check plugin health"
wrapping `ErrHealthCheckFailed` (the underlying error is dropped). -/
def CheckHealth (reg : Registry) (validateErr : Option GoError) (pluginID : String)
    (callResult : Except GoError CheckHealthResult) : Except GoError CheckHealthResult :=
  match validateErr with
  | some _ => .ok { Status := 403, Message := "Access denied" }
  | none =>
    match Plugin reg pluginID with
    | none => .error .pluginNotRegistered
    | some _ =>
      match callResult with
      | .ok resp => .ok resp
      | .error err =>
        if errorsIs err .methodNotImplemented then .error err
        else if errorsIs err .pluginUnavailable then .error err
        else .error (.wrap "failed to check plugin health" .healthCheckFailed)

/-! ## CallResource dispatch -/

/-- Outcome written by `handleCallResourceError` (`reqCtx.JsonApiErr`):
HTTP status, public message, underlying error. -/
structure JsonApiError where
  status : Nat
  message : String
  err : GoError
  deriving DecidableEq, Repr

/-- `handleCallResourceError`: maps plugin-unavailable to 503, method-not-
implemented to 404, anything else to a 500 "Failed to call resource". -/
def handleCallResourceError (err : GoError) : JsonApiError :=
  if errorsIs err .pluginUnavailable then ⟨503, "Plugin unavailable", err⟩
  else if errorsIs err .methodNotImplemented then ⟨404, "Not found", err⟩
  else ⟨500, "Failed to call resource", err⟩

/-- Observable trace of one `PluginManager.CallResource` invocation: whether
the request validator ran, whether the plugin's `CallResource` capability was
invoked, and the API error written to the request context (none on success). -/
structure CallResourceTrace where
  validatorInvoked : Bool
  pluginCalled : Bool
  outcome : Option JsonApiError
  deriving DecidableEq, Repr

/-- `PluginManager.CallResource` with `callResourceInternal` inlined: the
validator always runs first (a failure is written as 403 "Access denied");
then the raw URL is parsed; then the registry lookup (absent yields
`ErrPluginNotRegistered` through `handleCallResourceError`); then the request
body is read; only then is the plugin's `CallResource` invoked, and its error
or the relay's error is written through `handleCallResourceError`.  External
outcomes (validator, URL parse, body read, plugin call, relay) are arguments. -/
def CallResource (reg : Registry) (pluginID : String)
    (validateErr : Option GoError) (urlParseErr : Option GoError)
    (bodyReadErr : Option GoError) (pluginErr : Option GoError)
    (flushStreamErr : Option GoError) : CallResourceTrace :=
  match validateErr with
  | some err => ⟨true, false, some ⟨403, "Access denied", err⟩⟩
  | none =>
    match urlParseErr with
    | some err => ⟨true, false, some (handleCallResourceError err)⟩
    | none =>
      match Plugin reg pluginID with
      | none => ⟨true, false, some (handleCallResourceError .pluginNotRegistered)⟩
      | some _ =>
        match bodyReadErr with
        | some err =>
          ⟨true, false, some (handleCallResourceError (.wrap "failed to read request body" err))⟩
        | none =>
          match pluginErr with
          | some err => ⟨true, true, some (handleCallResourceError err)⟩
          | none =>
            match flushStreamErr with
            | some err => ⟨true, true, some (handleCallResourceError err)⟩
            | none => ⟨true, true, none⟩

/-! ## Resource stream relay (`flushStream`) -/

/-- `backend.CallResourceResponse`: one chunk of a resource-call response.
`Headers` is `none` for a nil Go map (the source tests `resp.Headers != nil`);
a header map is a list of key/values pairs; the body is a byte list. -/
structure CallResourceResponse where
  Headers : Option (List (String × List String))
  Status : Nat
  Body : List Nat
  deriving DecidableEq, Repr

/-- The `http.ResponseWriter` as observed by `flushStream`: `w.Header().Add`
appends a key/value pair, `w.WriteHeader` records the status, `w.Write`
appends body bytes. -/
structure ResponseWriter where
  header : List (String × String) := []
  status : Option Nat := none
  body : List Nat := []
  deriving DecidableEq, Repr

/-- The header/status commit of the first chunk that carries headers: a
default `Content-Type: application/json` is injected when the key is absent,
then every key except `Set-Cookie` is copied value by value. -/
def commitHeaders (hs : List (String × List String)) : List (String × String) :=
  let hs :=
    if hs.any (fun kv => kv.1 = "Content-Type") then hs
    else hs ++ [("Content-Type", ["application/json"])]
  (hs.filter fun kv => !(kv.1 = "Set-Cookie" : Bool)).flatMap
    fun kv => kv.2.map fun v => (kv.1, v)

/-- One loop iteration's writes for a received chunk: the header/status
commit happens only when this is the first processed chunk
(`processedStreams == 0`) and the chunk carries headers; the body bytes are
always appended. -/
def writeChunk (first : Bool) (w : ResponseWriter) (resp : CallResourceResponse) :
    ResponseWriter :=
  let w :=
    match resp.Headers with
    | some hs =>
      if first then
        { w with header := w.header ++ commitHeaders hs, status := some resp.Status }
      else w
    | none => w
  { w with body := w.body ++ resp.Body }

/-- How the chunk stream of one invocation ends: `io.EOF` from `Recv`, or a
receive error. -/
inductive StreamEnd where
  | eof
  | recvErr (err : GoError)
  deriving DecidableEq, Repr

/-- Result of `flushStream`: the writer's final state, the returned error
(`none` is a nil return) and whether the relay itself closed the stream
(the `return stream.Close()` branch; `Close` on the still-open stream
returns nil, see `CRStream.close`). -/
structure FlushResult where
  w : ResponseWriter
  err : Option GoError
  closedStream : Bool
  deriving DecidableEq, Repr

/-- The `flushStream` receive loop, with the chunks already received and the
`processedStreams` counter explicit. -/
def flushLoop : List CallResourceResponse → StreamEnd → ResponseWriter → Nat → FlushResult
  | [], .eof, w, processedStreams =>
    if processedStreams = 0 then ⟨w, some (.mk "received empty resource response"), false⟩
    else ⟨w, none, false⟩
  | [], .recvErr err, w, processedStreams =>
    if processedStreams = 0 then
      ⟨w, some (.wrap "failed to receive response from resource call" err), false⟩
    else ⟨w, none, true⟩
  | resp :: rest, ending, w, processedStreams =>
    flushLoop rest ending (writeChunk (processedStreams = 0) w resp) (processedStreams + 1)

/-- `flushStream`: relays the chunk sequence delivered by `Recv` (followed by
its terminating `io.EOF` or receive error) to the response writer. -/
def flushStream (chunks : List CallResourceResponse) (ending : StreamEnd) : FlushResult :=
  flushLoop chunks ending {} 0

/-! ## The resource response stream object (`callResourceResponseStream`) -/

/-- `callResourceResponseStream`: the request-scoped chunk channel.
`ctxErr` is `none` while the governing context is alive and carries
`ctx.Err()` once the context is done; `queue` holds sent, not yet received
chunks (the unbuffered rendezvous is abstracted by this queue); `closed` is
the explicit closed flag. -/
structure CRStream where
  ctxErr : Option GoError
  queue : List CallResourceResponse
  closed : Bool
  deriving DecidableEq, Repr

/-- `newCallResourceResponseStream`. -/
def newCallResourceResponseStream : CRStream :=
  { ctxErr := none, queue := [], closed := false }

/-- Outcome of `CRStream.send`: an error return, a delivered chunk, with
blocking (no receiver ready, context alive) left abstract. -/
inductive SendResult where
  | sendErr (err : GoError)
  | delivered
  deriving DecidableEq, Repr

/-- `callResourceResponseStream.Send`: fails on a closed stream, fails with
"cancelled" when the governing context is done, otherwise delivers the chunk
(enqueues it for `Recv`). -/
def CRStream.send (s : CRStream) (res : CallResourceResponse) : SendResult × CRStream :=
  if s.closed then (.sendErr (.mk "cannot send to a closed stream"), s)
  else
    match s.ctxErr with
    | some _ => (.sendErr (.mk "cancelled"), s)
    | none => (.delivered, { s with queue := s.queue ++ [res] })

/-- Outcome of `CRStream.recv`: a chunk, an error (`io.EOF` once closed and
drained, or the context's error), or blocked (open, empty, context alive). -/
inductive RecvResult where
  | chunk (res : CallResourceResponse)
  | recvErr (err : GoError)
  | blocked
  deriving DecidableEq, Repr

/-- `callResourceResponseStream.Recv`: the context's error once the context
is done; otherwise the next queued chunk; on a drained channel, `io.EOF` if
closed and blocking if not. -/
def CRStream.recv (s : CRStream) : RecvResult × CRStream :=
  match s.ctxErr with
  | some err => (.recvErr err, s)
  | none =>
    match s.queue with
    | res :: rest => (.chunk res, { s with queue := rest })
    | [] => if s.closed then (.recvErr .eof, s) else (.blocked, s)

/-- `callResourceResponseStream.Close`: fails when already closed, otherwise
closes the channel and sets the flag. -/
def CRStream.close (s : CRStream) : Option GoError × CRStream :=
  if s.closed then (some (.mk "cannot close a closed stream"), s)
  else (none, { s with closed := true })

/-! ## Crash-watch loop (`restartKilledProcess`) -/

/-- One `select` resolution of the crash-watch loop: either the governing
context is done (with its `ctx.Err()` value), or the ticker fires and the
handle is observed with its decommission flag, its `Exited` report, and the
outcome a `Start` attempt would have. -/
inductive WatchEvent where
  | ctxDone (err : Option GoError)
  | tick (decommissioned : Bool) (exited : Bool) (startErr : Option GoError)
  deriving DecidableEq, Repr

/-- Observable outcome of running the crash-watch loop against a schedule of
`select` resolutions: how many `Start` attempts were issued, the returned
error (`none` is a nil return), and whether the loop returned at all within
the schedule. -/
structure WatchOut where
  starts : Nat
  result : Option GoError
  finished : Bool
  deriving DecidableEq, Repr

/-- `restartKilledProcess` over a schedule of `select` resolutions: on
context done, return the context's error unless it is nil or
`context.Canceled`; on a tick, stop when the handle is decommissioned,
keep waiting when it has not exited, and otherwise attempt a `Start`
(a failed attempt is logged and polling continues). -/
def restartKilledProcess : List WatchEvent → WatchOut
  | [] => ⟨0, none, false⟩
  | .ctxDone err :: _ =>
    match err with
    | some e => if errorsIs e .contextCanceled then ⟨0, none, true⟩ else ⟨0, some e, true⟩
    | none => ⟨0, none, true⟩
  | .tick decommissioned exited _ :: rest =>
    if decommissioned then ⟨0, none, true⟩
    else if !exited then restartKilledProcess rest
    else
      let out := restartKilledProcess rest
      { out with starts := out.starts + 1 }

/-- Count of ticks, before the loop's first terminating event, that observe
the handle exited and not decommissioned (each is one `Start` attempt). -/
def exitedObservations : List WatchEvent → Nat
  | [] => 0
  | .ctxDone _ :: _ => 0
  | .tick decommissioned exited _ :: rest =>
    if decommissioned then 0
    else (if exited then 1 else 0) + exitedObservations rest

/-- Holds of a schedule fragment none of whose events terminates the loop:
every event is a tick of a non-decommissioned handle. -/
def nonTerminating (events : List WatchEvent) : Bool :=
  events.all fun e =>
    match e with
    | .ctxDone _ => false
    | .tick decommissioned _ _ => !decommissioned

/-! ## Install/uninstall orchestration (`Uninstall`) -/

/-- Go `filepath.Rel` on cleaned absolute paths given as segment lists:
strip the common leading segments, then one ".." per remaining base segment
followed by the remaining target segments ("." when nothing remains). -/
def filepathRel : List String → List String → List String
  | [], [] => ["."]
  | [], target => target
  | base, [] => List.replicate base.length ".."
  | base@(b :: bs), t :: ts =>
    if b = t then filepathRel bs ts
    else List.replicate base.length ".." ++ t :: ts

/-- The source's escape test `strings.HasPrefix(path, ".."+Separator)` on a
relative path given as segments: true exactly when the joined path starts
with "../", i.e. the first segment is ".." and another segment follows. -/
def relEscapes : List String → Bool
  | s :: _ :: _ => s = ".."
  | _ => false

/-- Modelled from the spec: the directory is a strict descendant of
(strictly inside) the configured external-plugins root — the root's segments
are a proper leading part of the directory's segments.  Spec-side notion,
compared against the source's `relEscapes` test. -/
def strictDescendant : List String → List String → Bool
  | [], [] => false
  | [], _ :: _ => true
  | _ :: _, [] => false
  | r :: rs, d :: ds => r = d && strictDescendant rs ds

/-- Side effects of one `Uninstall` call on the external collaborators and
handles: which handles were decommissioned, which were stopped, and the
directories passed to the external Installer's `Uninstall`. -/
structure UninstallEffects where
  decommissioned : List String := []
  stopped : List String := []
  installerUninstalled : List (List String) := []
  deriving DecidableEq, Repr

/-- Observable outcome of `PluginManager.Uninstall`: the returned error
(`none` is a nil return), the registry afterwards, and the side effects. -/
structure UninstallOut where
  err : Option GoError
  reg : Registry
  effects : UninstallEffects

/-- `PluginManager.unregisterAndStop`: decommission the shared handle (its
map entry now reads decommissioned), stop it (a stop error aborts before the
map deletion), then delete its key from the map.  `Decommission` itself is
modelled from the spec as the always-succeeding false→true flag transition. -/
def unregisterAndStop (reg : Registry) (p : PluginV2) (stopErr : Option GoError) :
    Option GoError × Registry × UninstallEffects :=
  let reg := mapUpdate reg p.ID fun q => { q with decommissioned := true }
  match stopErr with
  | some err => (some err, reg, { decommissioned := [p.ID], stopped := [p.ID] })
  | none =>
    (none, mapDelete reg p.ID, { decommissioned := [p.ID], stopped := [p.ID] })

/-- `PluginManager.Uninstall`: lookup via `Plugin` (absent or decommissioned
yields `ErrPluginNotInstalled`); a non-external handle yields
`ErrUninstallCorePlugin`; then the escape check on
`filepath.Rel(cfg.PluginsPath, plugin.PluginDir)`; then, if registered,
`unregisterAndStop`; finally the external Installer's `Uninstall` on the
plugin directory, whose outcome is the `installerErr` argument. -/
def Uninstall (pluginsPath : List String) (reg : Registry) (pluginID : String)
    (stopErr : Option GoError) (installerErr : Option GoError) : UninstallOut :=
  match Plugin reg pluginID with
  | none => ⟨some .pluginNotInstalled, reg, {}⟩
  | some plugin =>
    if !plugin.IsExternalPlugin then ⟨some .uninstallCorePlugin, reg, {}⟩
    else if relEscapes (filepathRel pluginsPath plugin.pluginDir) then
      ⟨some .uninstallOutsideOfPluginDir, reg, {}⟩
    else if isRegistered reg pluginID then
      match unregisterAndStop reg plugin stopErr with
      | (some err, regAfter, effects) => ⟨some err, regAfter, effects⟩
      | (none, regAfter, effects) =>
        ⟨installerErr, regAfter,
          { effects with installerUninstalled := [plugin.pluginDir] }⟩
    else
      ⟨installerErr, reg, { installerUninstalled := [plugin.pluginDir] }⟩

/-! ## Helper lemmas -/

/-- A successful map lookup returns one of the stored handles. -/
theorem mapLookup_mem : ∀ {reg : Registry} {pluginID : String} {p : PluginV2},
    mapLookup reg pluginID = some p → p ∈ reg.map Prod.snd
  | [], _, _, h => by simp [mapLookup] at h
  | (k, v) :: rest, pluginID, p, h => by
    rw [mapLookup] at h
    by_cases hk : k = pluginID
    · simp [hk] at h
      simp [h]
    · simp [hk] at h
      exact List.mem_cons_of_mem _ (mapLookup_mem h)

/-- A chunk that is not the first processed one only appends its body
bytes. -/
theorem writeChunk_not_first (w : ResponseWriter) (c : CallResourceResponse) :
    writeChunk false w c = { w with body := w.body ++ c.Body } := by
  cases hc : c.Headers <;> simp [writeChunk, hc]

/-- After the first chunk, the relay loop only appends body bytes; the
header and status fields are those accumulated so far. -/
theorem flushLoop_writer_tail (ending : StreamEnd) :
    ∀ (chunks : List CallResourceResponse) (w : ResponseWriter) (n : Nat),
    (flushLoop chunks ending w (n + 1)).w =
      { w with body := w.body ++ (chunks.map (fun c => c.Body)).flatten }
  | [], w, n => by cases ending <;> simp [flushLoop]
  | c :: rest, w, n => by
    have hfirst : (n + 1 = 0) = False := by simp
    rw [flushLoop]
    simp only [hfirst, decide_False]
    rw [writeChunk_not_first, flushLoop_writer_tail ending rest _ (n + 1)]
    simp [List.append_assoc]

/-- A receive error that arrives after at least one processed chunk makes the
loop close the stream and return its nil close result. -/
theorem flushLoop_recvErr_tail (e : GoError) :
    ∀ (chunks : List CallResourceResponse) (w : ResponseWriter) (n : Nat),
    (flushLoop chunks (.recvErr e) w (n + 1)).err = none ∧
    (flushLoop chunks (.recvErr e) w (n + 1)).closedStream = true
  | [], w, n => by simp [flushLoop]
  | c :: rest, w, n => by
    rw [flushLoop]
    exact flushLoop_recvErr_tail e rest _ (n + 1)

/-- The number of start attempts of the crash-watch loop equals the number of
exited-and-not-decommissioned tick observations before its first terminating
event. -/
theorem restartKilledProcess_starts : ∀ events : List WatchEvent,
    (restartKilledProcess events).starts = exitedObservations events
  | [] => rfl
  | .ctxDone err :: rest => by
    cases err with
    | none => simp [restartKilledProcess, exitedObservations]
    | some e =>
      by_cases h : errorsIs e .contextCanceled = true <;>
        simp [restartKilledProcess, exitedObservations, h]
  | .tick d ex se :: rest => by
    by_cases hd : d <;> by_cases hex : ex <;>
      simp [restartKilledProcess, exitedObservations, hd, hex,
        restartKilledProcess_starts rest, Nat.add_comm]

/-- Running the crash-watch loop through a non-terminating schedule fragment
adds that fragment's start attempts and then behaves as on the remainder. -/
theorem restartKilledProcess_append : ∀ (pre : List WatchEvent),
    nonTerminating pre = true → ∀ rest : List WatchEvent,
    restartKilledProcess (pre ++ rest) =
      ⟨exitedObservations pre + (restartKilledProcess rest).starts,
       (restartKilledProcess rest).result, (restartKilledProcess rest).finished⟩
  | [], _, rest => by simp [exitedObservations]
  | .ctxDone err :: pre, h, rest => by simp [nonTerminating] at h
  | .tick d ex se :: pre, h, rest => by
    have hd : d = false := by
      simp [nonTerminating] at h
      simpa using h.1
    have hpre : nonTerminating pre = true := by
      simp [nonTerminating] at h ⊢
      exact h.2
    subst hd
    by_cases hex : ex <;>
      simp [restartKilledProcess, exitedObservations, hex,
        restartKilledProcess_append pre hpre rest, Nat.add_assoc, Nat.add_comm,
        Nat.add_left_comm]

/-! ## Claims -/

/-- C1, counterexample: a present but decommissioned handle is invisible to
`Plugin`, yet `Plugins` still returns it for a requested type set containing
its type — the claim that `list` omits the handle is false on the code. -/
theorem C1_counterexample :
    (PluginV2.mk "a" .dataSource true [] true).decommissioned = true ∧
    Plugin [("a", PluginV2.mk "a" .dataSource true [] true)] "a" = none ∧
    Plugins [("a", PluginV2.mk "a" .dataSource true [] true)] [.dataSource] =
      [PluginV2.mk "a" .dataSource true [] true] :=
  ⟨rfl, rfl, rfl⟩

/-- C1, amended: a handle present in the registry map but decommissioned is
absent for `Plugin` and for `PluginByType` at every type, but `Plugins` keeps
it in its result whenever its type is in the requested set. -/
theorem C1_decommissioned_lookup_visibility (reg : Registry) (pluginID : String)
    (p : PluginV2) (pluginTypes : List PluginType)
    (hlook : mapLookup reg pluginID = some p) (hdec : p.decommissioned = true)
    (hty : (requestedTypes pluginTypes).contains p.pluginType = true) :
    Plugin reg pluginID = none ∧
    (∀ t, PluginByType reg pluginID t = none) ∧
    p ∈ Plugins reg pluginTypes := by
  refine ⟨?_, ?_, ?_⟩
  · simp [Plugin, hlook, PluginV2.IsDecommissioned, hdec]
  · intro t
    simp [PluginByType, hlook, PluginV2.IsDecommissioned, hdec]
  · have hp : p ∈ reg.map Prod.snd := mapLookup_mem hlook
    have hmem : p.pluginType ∈ requestedTypes pluginTypes := by simpa using hty
    simp [Plugins, List.mem_filter, hp, hty, hmem]

/-- C1, witness for the amended theorem at a concrete decommissioned
handle. -/
theorem C1_decommissioned_lookup_visibility_witness :
    Plugin [("a", PluginV2.mk "a" .panel true [] true)] "a" = none ∧
    (∀ t, PluginByType [("a", PluginV2.mk "a" .panel true [] true)] "a" t = none) ∧
    PluginV2.mk "a" .panel true [] true ∈
      Plugins [("a", PluginV2.mk "a" .panel true [] true)] [] :=
  C1_decommissioned_lookup_visibility _ _ _ _ rfl rfl rfl

/-- C2, counterexample: `CallResource` on an empty registry does fail with
`ErrPluginNotRegistered` and performs no plugin call, but the request
validator has already been invoked — the claim that the validator is not
invoked is false on the code. -/
theorem C2_counterexample :
    Plugin [] "x" = none ∧
    CallResource [] "x" none none none none none =
      ⟨true, false, some ⟨500, "Failed to call resource", .pluginNotRegistered⟩⟩ ∧
    (CallResource [] "x" none none none none none).validatorInvoked = true ∧
    (CallResource [] "x" none none none none none).pluginCalled = false :=
  ⟨rfl, rfl, rfl, rfl⟩

/-- C2, amended: `CallResource` always runs the request validator first; when
validation passes and the plugin id resolves to no handle (unregistered or
decommissioned), the invocation fails with `ErrPluginNotRegistered` written
as a 500 "Failed to call resource", and no plugin call is performed. -/
theorem C2_callResource_not_registered (reg : Registry) (pluginID : String)
    (bodyReadErr pluginErr flushStreamErr : Option GoError)
    (h : Plugin reg pluginID = none) :
    CallResource reg pluginID none none bodyReadErr pluginErr flushStreamErr =
      ⟨true, false, some ⟨500, "Failed to call resource", .pluginNotRegistered⟩⟩ ∧
    (∀ validateErr urlParseErr,
      (CallResource reg pluginID validateErr urlParseErr bodyReadErr pluginErr
        flushStreamErr).validatorInvoked = true) := by
  constructor
  · simp only [CallResource, h]
    rfl
  · intro validateErr urlParseErr
    cases validateErr <;> cases urlParseErr <;> simp only [CallResource, h]

/-- C2, witness for the amended theorem on the empty registry. -/
theorem C2_callResource_not_registered_witness :
    CallResource [] "x" none none none none none =
      ⟨true, false, some ⟨500, "Failed to call resource", .pluginNotRegistered⟩⟩ ∧
    (∀ validateErr urlParseErr,
      (CallResource [] "x" validateErr urlParseErr none none none).validatorInvoked
        = true) :=
  C2_callResource_not_registered [] "x" none none none rfl

/-- C3: the escape check of `Uninstall` evaluated at a handle whose directory
is the parent of the configured external-plugins root: the directory is not a
strict descendant of the root, `filepath.Rel` yields "..", which does not
start with "../", so the call does not fail with
`ErrUninstallOutsideOfPluginDir` — it decommissions and stops the handle,
removes the registry entry, and hands the outside directory to the external
Installer, returning nil. -/
theorem C3_escape_check_misses_parent_directory :
    strictDescendant ["data", "plugins"] ["data"] = false ∧
    filepathRel ["data", "plugins"] ["data"] = [".."] ∧
    relEscapes [".."] = false ∧
    Uninstall ["data", "plugins"] [("x", PluginV2.mk "x" .dataSource true ["data"] false)]
        "x" none none =
      ⟨none, [], { decommissioned := ["x"], stopped := ["x"],
                   installerUninstalled := [["data"]] }⟩ :=
  ⟨rfl, rfl, rfl, rfl⟩

/-- C4: termination behavior of the relay — end of stream with zero chunks
yields the "received empty resource response" error with no bytes written; a
receive error before any chunk is surfaced wrapped; a receive error after at
least one delivered chunk yields a nil return (the committed response is not
retracted) with the stream closed by the relay. -/
theorem C4_flushStream_termination (c0 : CallResourceResponse)
    (rest : List CallResourceResponse) (e : GoError) :
    ((flushStream [] .eof).err = some (.mk "received empty resource response") ∧
      (flushStream [] .eof).w.body = []) ∧
    (flushStream [] (.recvErr e)).err =
      some (.wrap "failed to receive response from resource call" e) ∧
    ((flushStream (c0 :: rest) (.recvErr e)).err = none ∧
      (flushStream (c0 :: rest) (.recvErr e)).closedStream = true) := by
  refine ⟨⟨rfl, rfl⟩, rfl, ?_⟩
  rw [flushStream, flushLoop]
  exact flushLoop_recvErr_tail e rest _ 0

/-- C5: header/status commit and body order of the relay — the status is
written once, exactly when the first chunk carries a non-nil header map (and
it is that chunk's status); the response headers are exactly the first
chunk's committed headers; the bodies of all chunks are written in send
order; a committed header set never contains `Set-Cookie` and gains a
default `Content-Type: application/json` when the key was absent. -/
theorem C5_header_commit_and_body_order (chunks : List CallResourceResponse)
    (ending : StreamEnd) (hs : List (String × List String)) (v : String) :
    (flushStream chunks ending).w.body = (chunks.map (fun c => c.Body)).flatten ∧
    (flushStream chunks ending).w.status =
      (match chunks with
       | [] => none
       | c :: _ => match c.Headers with
         | some _ => some c.Status
         | none => none) ∧
    (flushStream chunks ending).w.header =
      (match chunks with
       | [] => []
       | c :: _ => match c.Headers with
         | some hs0 => commitHeaders hs0
         | none => []) ∧
    ("Set-Cookie", v) ∉ commitHeaders hs ∧
    (hs.all (fun kv => !(kv.1 = "Content-Type" : Bool)) = true →
      ("Content-Type", "application/json") ∈ commitHeaders hs) := by
  have hwriter :
      (flushStream chunks ending).w =
        (match chunks with
         | [] => ({} : ResponseWriter)
         | c :: rest =>
           { header := (match c.Headers with
               | some hs0 => commitHeaders hs0
               | none => []),
             status := (match c.Headers with
               | some _ => some c.Status
               | none => none),
             body := c.Body ++ (rest.map (fun c => c.Body)).flatten }) := by
    cases chunks with
    | nil => cases ending <;> simp [flushStream, flushLoop]
    | cons c rest =>
      rw [flushStream, flushLoop]
      have hdec : (decide (0 = 0)) = true := by simp
      rw [hdec, flushLoop_writer_tail ending rest _ 0]
      cases hc : c.Headers <;> simp [writeChunk, hc]
  refine ⟨?_, ?_, ?_, ?_, ?_⟩
  · rw [hwriter]; cases chunks <;> simp
  · rw [hwriter]; cases chunks with
    | nil => rfl
    | cons c rest => cases hc : c.Headers <;> simp [hc]
  · rw [hwriter]; cases chunks with
    | nil => rfl
    | cons c rest => cases hc : c.Headers <;> simp [hc]
  · intro hmem
    simp only [commitHeaders, List.mem_flatMap, List.mem_filter, List.mem_map] at hmem
    obtain ⟨kv, ⟨_, hkv⟩, w, _, hw⟩ := hmem
    have hkey : kv.1 = "Set-Cookie" := (Prod.mk.injEq _ _ _ _ ▸ hw).1
    simp [hkey] at hkv
  · intro hall
    have hnone : hs.any (fun kv => kv.1 = "Content-Type") = false := by
      simp only [List.all_eq_true] at hall
      simp only [List.any_eq_false]
      intro kv hkv
      simpa using hall kv hkv
    simp only [commitHeaders, hnone]
    simp [List.mem_flatMap, List.mem_filter]

/-- C6: crash-watch — the number of `Start` attempts equals the number of
ticks observing the handle exited and not decommissioned before the first
terminating event; a tick observing decommission ends the loop with a nil
return and no further `Start`; context cancellation ends the loop, returning
nil unless the context error is something other than `context.Canceled`. -/
theorem C6_crash_watch (events pre post : List WatchEvent) (exited : Bool)
    (startErr : Option GoError) (ctxErr : Option GoError)
    (hpre : nonTerminating pre = true) :
    (restartKilledProcess events).starts = exitedObservations events ∧
    restartKilledProcess (pre ++ .tick true exited startErr :: post) =
      ⟨exitedObservations pre, none, true⟩ ∧
    restartKilledProcess (pre ++ .ctxDone ctxErr :: post) =
      ⟨exitedObservations pre,
       (match ctxErr with
        | some e => if errorsIs e .contextCanceled then none else some e
        | none => none), true⟩ := by
  refine ⟨restartKilledProcess_starts events, ?_, ?_⟩
  · rw [restartKilledProcess_append pre hpre]
    simp [restartKilledProcess]
  · rw [restartKilledProcess_append pre hpre]
    cases ctxErr with
    | none => simp [restartKilledProcess]
    | some e =>
      by_cases h : errorsIs e .contextCanceled = true <;>
        simp [restartKilledProcess, h]

/-- C6, witness: the crash-watch theorem at a concrete schedule — one exited
observation, one still-running observation, then decommission. -/
theorem C6_crash_watch_witness :
    (restartKilledProcess [.tick false true none, .tick false false none]).starts =
      exitedObservations [.tick false true none, .tick false false none] ∧
    restartKilledProcess
        ([.tick false true none, .tick false false none] ++
          .tick true true none :: [.tick false true none]) =
      ⟨exitedObservations [.tick false true none, .tick false false none], none, true⟩ ∧
    restartKilledProcess
        ([.tick false true none, .tick false false none] ++
          .ctxDone (some .contextCanceled) :: [.tick false true none]) =
      ⟨exitedObservations [.tick false true none, .tick false false none], none, true⟩ :=
  C6_crash_watch [.tick false true none, .tick false false none]
    [.tick false true none, .tick false false none] [.tick false true none]
    true none (some .contextCanceled) rfl

/-- C5, witness: the relay theorem at a concrete two-chunk stream whose
first chunk carries a `Set-Cookie` header and no `Content-Type`. -/
theorem C5_header_commit_and_body_order_witness :
    (flushStream [⟨some [("Set-Cookie", ["sid=1"]), ("X-Tag", ["a"])], 200, [1, 2]⟩,
        ⟨none, 0, [3]⟩] .eof).w.body =
      ([⟨some [("Set-Cookie", ["sid=1"]), ("X-Tag", ["a"])], 200, [1, 2]⟩,
        (⟨none, 0, [3]⟩ : CallResourceResponse)].map (fun c => c.Body)).flatten ∧
    ("Set-Cookie", "sid=1") ∉
      commitHeaders [("Set-Cookie", ["sid=1"]), ("X-Tag", ["a"])] ∧
    ("Content-Type", "application/json") ∈
      commitHeaders [("Set-Cookie", ["sid=1"]), ("X-Tag", ["a"])] := by
  have h := C5_header_commit_and_body_order
    [⟨some [("Set-Cookie", ["sid=1"]), ("X-Tag", ["a"])], 200, [1, 2]⟩, ⟨none, 0, [3]⟩]
    .eof [("Set-Cookie", ["sid=1"]), ("X-Tag", ["a"])] "sid=1"
  exact ⟨h.1, h.2.2.2.1, h.2.2.2.2 (by decide)⟩

/-- C7, counterexample: an error wrapping the NotImplemented sentinel is not
by value the sentinel, yet `QueryData` returns it verbatim instead of
wrapping it with "failed to query data"; and `CheckHealth` does not surface a
plain underlying error wrapped — it discards it in favor of the fixed
HealthCheckFailed sentinel.  The claim as stated is false on the code. -/
theorem C7_counterexample :
    (GoError.wrap "m" .methodNotImplemented ≠ .methodNotImplemented ∧
     GoError.wrap "m" .methodNotImplemented ≠ .pluginUnavailable) ∧
    QueryData [("x", PluginV2.mk "x" .dataSource true [] false)] "x"
        (.error (.wrap "m" .methodNotImplemented)) =
      .error (.wrap "m" .methodNotImplemented) ∧
    GoError.wrap "m" .methodNotImplemented ≠
      .wrap "failed to query data" (.wrap "m" .methodNotImplemented) ∧
    CheckHealth [("x", PluginV2.mk "x" .dataSource true [] false)] none "x"
        (.error (.mk "boom")) =
      .error (.wrap "failed to check plugin health" .healthCheckFailed) ∧
    GoError.wrap "failed to check plugin health" .healthCheckFailed ≠
      .wrap "failed to check plugin health" (.mk "boom") := by
  exact ⟨⟨by decide, by decide⟩, rfl, by decide, rfl, by decide⟩

/-- C7, amended: errors whose unwrap chain matches (`errors.Is`) the
NotImplemented or Unavailable sentinel — in particular the sentinel values
themselves — are returned verbatim by `QueryData` and `CheckHealth`; every
other error is surfaced by `QueryData` as "failed to query data" wrapping the
underlying error and by `CheckHealth` as "failed to check plugin health"
wrapping the fixed HealthCheckFailed sentinel, the underlying error being
discarded. -/
theorem C7_sentinel_errors_pass_through (reg : Registry) (pluginID : String)
    (p : PluginV2) (e : GoError) (h : Plugin reg pluginID = some p) :
    QueryData reg pluginID (.error e) =
      (if errorsIs e .methodNotImplemented || errorsIs e .pluginUnavailable then
        .error e
       else .error (.wrap "failed to query data" e)) ∧
    CheckHealth reg none pluginID (.error e) =
      (if errorsIs e .methodNotImplemented || errorsIs e .pluginUnavailable then
        .error e
       else .error (.wrap "failed to check plugin health" .healthCheckFailed)) ∧
    QueryData reg pluginID (.error .methodNotImplemented) =
      .error .methodNotImplemented ∧
    QueryData reg pluginID (.error .pluginUnavailable) = .error .pluginUnavailable ∧
    CheckHealth reg none pluginID (.error .methodNotImplemented) =
      .error .methodNotImplemented ∧
    CheckHealth reg none pluginID (.error .pluginUnavailable) =
      .error .pluginUnavailable := by
  refine ⟨?_, ?_, ?_, ?_, ?_, ?_⟩
  · simp only [QueryData, h]
    by_cases h1 : errorsIs e .methodNotImplemented = true <;>
      by_cases h2 : errorsIs e .pluginUnavailable = true <;>
      simp [h1, h2]
  · simp only [CheckHealth, h]
    by_cases h1 : errorsIs e .methodNotImplemented = true <;>
      by_cases h2 : errorsIs e .pluginUnavailable = true <;>
      simp [h1, h2]
  · simp only [QueryData, h]
    rfl
  · simp only [QueryData, h]
    rfl
  · simp only [CheckHealth, h]
    rfl
  · simp only [CheckHealth, h]
    rfl

/-- C7, witness for the amended theorem at a plain error on a registered
handle. -/
theorem C7_sentinel_errors_pass_through_witness :
    QueryData [("x", PluginV2.mk "x" .dataSource true [] false)] "x"
        (.error (.mk "boom")) =
      (if errorsIs (.mk "boom") .methodNotImplemented
          || errorsIs (.mk "boom") .pluginUnavailable then
        .error (.mk "boom")
       else .error (.wrap "failed to query data" (.mk "boom"))) ∧
    CheckHealth [("x", PluginV2.mk "x" .dataSource true [] false)] none "x"
        (.error (.mk "boom")) =
      (if errorsIs (.mk "boom") .methodNotImplemented
          || errorsIs (.mk "boom") .pluginUnavailable then
        .error (.mk "boom")
       else .error (.wrap "failed to check plugin health" .healthCheckFailed)) ∧
    QueryData [("x", PluginV2.mk "x" .dataSource true [] false)] "x"
        (.error .methodNotImplemented) = .error .methodNotImplemented ∧
    QueryData [("x", PluginV2.mk "x" .dataSource true [] false)] "x"
        (.error .pluginUnavailable) = .error .pluginUnavailable ∧
    CheckHealth [("x", PluginV2.mk "x" .dataSource true [] false)] none "x"
        (.error .methodNotImplemented) = .error .methodNotImplemented ∧
    CheckHealth [("x", PluginV2.mk "x" .dataSource true [] false)] none "x"
        (.error .pluginUnavailable) = .error .pluginUnavailable :=
  C7_sentinel_errors_pass_through _ _ (PluginV2.mk "x" .dataSource true [] false)
    (.mk "boom") rfl

/-- C8: on an absent (unregistered or decommissioned) plugin id, `QueryData`
returns an empty successful response and no error, while `CollectMetrics`
and `CheckHealth` (once validation passed) fail with
`ErrPluginNotRegistered`. -/
theorem C8_absent_plugin_dispatch (reg : Registry) (pluginID : String)
    (qd : Except GoError QueryDataResponse) (cm : Except GoError CollectMetricsResult)
    (ch : Except GoError CheckHealthResult) (h : Plugin reg pluginID = none) :
    QueryData reg pluginID qd = .ok {} ∧
    CollectMetrics reg pluginID cm = .error .pluginNotRegistered ∧
    CheckHealth reg none pluginID ch = .error .pluginNotRegistered := by
  refine ⟨?_, ?_, ?_⟩ <;> simp only [QueryData, CollectMetrics, CheckHealth, h]

/-- C8, witness: the dispatch-on-absence theorem at a registry whose only
entry is decommissioned. -/
theorem C8_absent_plugin_dispatch_witness :
    QueryData [("a", PluginV2.mk "a" .app true [] true)] "a" (.ok {}) = .ok {} ∧
    CollectMetrics [("a", PluginV2.mk "a" .app true [] true)] "a" (.ok {}) =
      .error .pluginNotRegistered ∧
    CheckHealth [("a", PluginV2.mk "a" .app true [] true)] none "a" (.ok {}) =
      .error .pluginNotRegistered :=
  C8_absent_plugin_dispatch _ _ _ _ _ rfl

/-- C9: stream object contract — `Send` fails on a closed stream and fails
with "cancelled" when the governing context is done; `Recv` yields `io.EOF`
once the channel is closed and drained, and the context's error when the
context is done; a second `Close` fails. -/
theorem C9_stream_object_contract :
    (∀ (s : CRStream) (res : CallResourceResponse), s.closed = true →
      (s.send res).1 = .sendErr (.mk "cannot send to a closed stream")) ∧
    (∀ (s : CRStream) (res : CallResourceResponse) (e : GoError), s.closed = false →
      s.ctxErr = some e → (s.send res).1 = .sendErr (.mk "cancelled")) ∧
    (∀ s : CRStream, s.ctxErr = none → s.closed = true → s.queue = [] →
      (s.recv).1 = .recvErr .eof) ∧
    (∀ (s : CRStream) (e : GoError), s.ctxErr = some e →
      (s.recv).1 = .recvErr e) ∧
    (∀ s : CRStream, s.closed = false →
      ((s.close).2.close).1 = some (.mk "cannot close a closed stream") ∧
      (s.close).1 = none) := by
  refine ⟨?_, ?_, ?_, ?_, ?_⟩
  · intro s res hclosed
    simp [CRStream.send, hclosed]
  · intro s res e hclosed hctx
    simp [CRStream.send, hclosed, hctx]
  · intro s hctx hclosed hqueue
    simp [CRStream.recv, hctx, hclosed, hqueue]
  · intro s e hctx
    simp [CRStream.recv, hctx]
  · intro s hclosed
    simp [CRStream.close, hclosed]

/-- C9, witness: the stream contract exercised on the fresh stream and on
streams in the closed and context-done states. -/
theorem C9_stream_object_contract_witness :
    ((CRStream.mk none [] true).send ⟨none, 0, []⟩).1 =
      .sendErr (.mk "cannot send to a closed stream") ∧
    ((CRStream.mk (some .contextCanceled) [] false).send ⟨none, 0, []⟩).1 =
      .sendErr (.mk "cancelled") ∧
    ((CRStream.mk none [] true).recv).1 = .recvErr .eof ∧
    ((CRStream.mk (some .contextCanceled) [] false).recv).1 =
      .recvErr .contextCanceled ∧
    ((newCallResourceResponseStream.close).2.close).1 =
      some (.mk "cannot close a closed stream") ∧
    (newCallResourceResponseStream.close).1 = none := by
  have h := C9_stream_object_contract
  exact ⟨h.1 (CRStream.mk none [] true) ⟨none, 0, []⟩ rfl,
    h.2.1 (CRStream.mk (some .contextCanceled) [] false) ⟨none, 0, []⟩ .contextCanceled
      rfl rfl,
    h.2.2.1 (CRStream.mk none [] true) rfl rfl rfl,
    h.2.2.2.1 (CRStream.mk (some .contextCanceled) [] false) .contextCanceled rfl,
    (h.2.2.2.2 newCallResourceResponseStream rfl).1,
    (h.2.2.2.2 newCallResourceResponseStream rfl).2⟩

/-- C10: `Uninstall` on an id whose map entry is present but decommissioned
fails with `ErrPluginNotInstalled` (not `ErrUninstallCorePlugin`), leaves the
registry unchanged, and triggers no decommission, stop or installer call,
because the `Plugin` lookup treats the decommissioned handle as absent. -/
theorem C10_uninstall_decommissioned (pluginsPath : List String) (reg : Registry)
    (pluginID : String) (p : PluginV2) (stopErr installerErr : Option GoError)
    (hlook : mapLookup reg pluginID = some p) (hdec : p.decommissioned = true) :
    Uninstall pluginsPath reg pluginID stopErr installerErr =
      ⟨some .pluginNotInstalled, reg, {}⟩ ∧
    some GoError.pluginNotInstalled ≠ some GoError.uninstallCorePlugin := by
  have hP : Plugin reg pluginID = none := by
    simp [Plugin, hlook, PluginV2.IsDecommissioned, hdec]
  refine ⟨?_, by decide⟩
  simp only [Uninstall, hP]

/-- C10, witness: a registry holding one decommissioned external handle. -/
theorem C10_uninstall_decommissioned_witness :
    Uninstall ["data", "plugins"]
        [("a", PluginV2.mk "a" .dataSource true ["data", "plugins", "a"] true)]
        "a" none none =
      ⟨some .pluginNotInstalled,
       [("a", PluginV2.mk "a" .dataSource true ["data", "plugins", "a"] true)], {}⟩ ∧
    some GoError.pluginNotInstalled ≠ some GoError.uninstallCorePlugin :=
  C10_uninstall_decommissioned _ _ _
    (PluginV2.mk "a" .dataSource true ["data", "plugins", "a"] true) _ _ rfl rfl
